import Mathlib

/-!
Shallow embedding of the PASE Console grid-intelligence frontend
(just000Curious/PASE-Predictive-Analysis-Sustainable-Energy) together
with the README's grid-optimization dispatch routine, and proofs of the
specification's claims about them.

Numbers are modelled as exact rationals.  The JavaScript calls
`Math.sin(hour * Math.PI / 12)`, `Math.sin(hour * Math.PI / 6)` and
`Math.random()` are modelled as explicit parameters (`s12`, `s6`,
`r1 ... r5`): universally quantified theorems carry the range hypotheses
`-1 ≤ s ≤ 1` and `0 ≤ r < 1` satisfied by the actual calls, and concrete
evaluations use attainable values (e.g. hour 18 gives `s12 = sin(3π/2) = -1`
exactly).  `Date.now()` is the parameter `now`, and `toISOString` is an
abstract parameter `iso : ℤ → String`.
-/

/-- The per-record data model of the frontend: the `SimulationDataPoint`
interface of `pages/Index.tsx`, with exactly its fourteen fields. -/
structure SimulationDataPoint where
  hour : ℕ
  datetime : String
  simulated_supply_mw : ℚ
  simulated_demand_mw : ℚ
  net_balance_mw : ℚ
  battery_charge_mwh : ℚ
  battery_percent : ℚ
  to_battery_mw : ℚ
  from_battery_mw : ℚ
  to_grid_mw : ℚ
  from_grid_mw : ℚ
  status : String
  wind_speed : ℚ
  wind_direction : ℚ
  deriving DecidableEq, Repr

/-- The time-of-day demand pattern of the mock generator in
`runSimulation` (`pages/Index.tsx`): base 70 MW, morning peak 95,
midday 85, evening peak 110, night 60, tested in this order. -/
def mockDemand (h : ℕ) : ℚ :=
  if 7 ≤ h ∧ h ≤ 9 then 95
  else if 12 ≤ h ∧ h ≤ 14 then 85
  else if 17 ≤ h ∧ h ≤ 20 then 110
  else if 22 ≤ h ∨ h ≤ 5 then 60
  else 70

/-- One entry of `mockSimulationData` (`pages/Index.tsx`, the body of
the 24-element `Array.from` builder).  `s12` stands for
`Math.sin(hour·π/12)`, `s6` for `Math.sin(hour·π/6)`, `r1 ... r5` for the
five `Math.random()` draws in source order (supply, battery level,
demand noise, wind speed, wind direction), `now` for `Date.now()` and
`iso` for `toISOString` on epoch milliseconds. -/
def mkMockRecord (iso : ℤ → String) (now : ℤ) (hour : ℕ)
    (s12 s6 r1 r2 r3 r4 r5 : ℚ) : SimulationDataPoint :=
  let demand : ℚ := mockDemand hour
  let supply : ℚ := 50 + s12 * 20 + r1 * 15
  let netBalance : ℚ := supply - demand
  let batteryLevel : ℚ := 30 + s12 * 20 + r2 * 10
  { hour := hour
    datetime := iso (now + (hour : ℤ) * 3600000)
    simulated_supply_mw := max 0 supply
    simulated_demand_mw := max 0 (demand + r3 * 10)
    net_balance_mw := netBalance
    battery_charge_mwh := batteryLevel * 3
    battery_percent := max 10 (min 95 batteryLevel)
    to_battery_mw := if netBalance > 0 then min netBalance 20 else 0
    from_battery_mw := if netBalance < 0 then min |netBalance| 25 else 0
    to_grid_mw := if netBalance > 0 then max 0 (netBalance - 5) else 0
    from_grid_mw := if netBalance < 0 then max 0 (|netBalance| - 5) else 0
    status :=
      if netBalance > 5 then "Surplus"
      else if netBalance < -5 then "Deficit"
      else "Balanced"
    wind_speed := 5 + s12 * 5 + r4 * 3
    wind_direction := 180 + s6 * 60 + r5 * 30 }

/-- Result of the README's `optimize_grid`: the surplus branch returns a
dict with keys `battery_charge`/`grid_export`, the deficit branch one
with keys `battery_discharge`/`grid_import`. -/
inductive GridDispatch where
  | surplus (battery_charge grid_export : ℚ)
  | deficit (battery_discharge grid_import : ℚ)
  deriving DecidableEq, Repr

/-- The battery power the dispatch applied: the charge amount in the
surplus branch, the discharge amount in the deficit branch. -/
def GridDispatch.applied : GridDispatch → ℚ
  | .surplus c _ => c
  | .deficit d _ => d

/-- Net flow bookkeeping of a dispatch:
`charge − discharge + export − import` (absent keys count as 0). -/
def GridDispatch.flow : GridDispatch → ℚ
  | .surplus c e => c + e
  | .deficit d i => -d - i

/-- The README's grid-optimization algorithm (`README.md`, section
"Grid Optimization Algorithm").  `battery_soc` is a fraction of
capacity; the configured globals `battery_charge_capacity`,
`battery_discharge_capacity` and `battery_capacity` are passed
explicitly; the timestep is the implicit 1 hour of the source. -/
def optimize_grid (battery_charge_capacity battery_discharge_capacity
    battery_capacity : ℚ) (supply demand battery_soc : ℚ) : GridDispatch :=
  let surplus := supply - demand
  if surplus > 0 then
    let charge_amount :=
      min surplus (min battery_charge_capacity
        ((8/10 - battery_soc) * battery_capacity))
    .surplus charge_amount (surplus - charge_amount)
  else
    let deficit := |surplus|
    let discharge_amount :=
      min deficit (min battery_discharge_capacity
        ((battery_soc - 2/10) * battery_capacity))
    .deficit discharge_amount (deficit - discharge_amount)

/-- Modelled from the spec: the BatteryModel state update after a
discharge, `soc_mwh − applied_mw · dt_hours`.  The backend module
(`backend/models/simulation.py`) that performs this update is not part
of the repository sources; the spec states "Updates soc_mwh by
± applied_mw · dt_hours". -/
def socAfterDischarge (soc_mwh applied_mw dt_hours : ℚ) : ℚ :=
  soc_mwh - applied_mw * dt_hours

/-- The fault-injection checkboxes of the dashboard
(`faults` state in `pages/Index.tsx`). -/
structure Faults where
  turbineFailure : Bool
  multipleTurbineFailure : Bool
  gridIssue : Bool
  batteryFault : Bool
  deriving DecidableEq, Repr

/-- The three operational modes of the dashboard. -/
inductive Mode where
  | LIVE
  | MANUAL
  | CUSTOM
  deriving DecidableEq, Repr

/-- The body the frontend POSTs to `/api/simulate`: the fields of
`requestBody` in `runSimulation` (`pages/Index.tsx`).  There is no
`grid_available` field. -/
structure SimRequest where
  use_live_data : Bool
  turbine_count : ℕ
  turbine_availability : ℚ
  battery_capacity_mwh : ℚ
  initial_battery_mwh : ℚ
  community_demand_percent : ℚ
  community_base_load_mw : ℚ
  battery_max_charge_mw : ℚ
  battery_max_discharge_mw : ℚ
  low_wind_threshold : ℚ
  high_wind_threshold : ℚ
  battery_low_threshold : ℚ
  battery_high_threshold : ℚ
  date_range : Option (String × String)
  deriving DecidableEq, Repr

/-- Construction of the simulation request (`requestBody` in
`runSimulation`, `pages/Index.tsx`): fault checkboxes override
`turbine_availability` (multi-turbine takes precedence over single) and
halve `battery_capacity_mwh`; the `gridIssue` checkbox is read nowhere
here; the date range is attached only in CUSTOM mode when both ends are
set. -/
def requestBody (mode : Mode) (turbineCount : ℕ)
    (turbineAvailability batteryCapacity : ℚ) (faults : Faults)
    (dateFrom dateTo : Option String) : SimRequest :=
  { use_live_data := mode = Mode.LIVE
    turbine_count := turbineCount
    turbine_availability :=
      if faults.multipleTurbineFailure then 25/100
      else if faults.turbineFailure then 5/10
      else turbineAvailability
    battery_capacity_mwh :=
      if faults.batteryFault then batteryCapacity * (5/10)
      else batteryCapacity
    initial_battery_mwh := batteryCapacity / 2
    community_demand_percent := 1/100
    community_base_load_mw := 75
    battery_max_charge_mw := 50
    battery_max_discharge_mw := 100
    low_wind_threshold := 3
    high_wind_threshold := 25
    battery_low_threshold := 2/10
    battery_high_threshold := 8/10
    date_range :=
      if mode = Mode.CUSTOM then
        match dateFrom, dateTo with
        | some f, some t => some (f, t)
        | _, _ => none
      else none }

/-- The LIVE-mode record-buffer update of `runSimulation`
(`pages/Index.tsx`): `[...prev.slice(-23), newDataPoint]`, keeping the
last 23 previous points plus the newly appended one. -/
def liveUpdate (prev : List SimulationDataPoint)
    (newDataPoint : SimulationDataPoint) : List SimulationDataPoint :=
  prev.drop (prev.length - 23) ++ [newDataPoint]

/-- An alert as the `DashboardHeader` component receives it. -/
structure Alert where
  level : String
  message : String
  timestamp : String
  deriving DecidableEq, Repr

/-- The critical group of `DashboardHeader`:
`alerts.filter(a => a.level === 'critical')`. -/
def criticalAlerts (alerts : List Alert) : List Alert :=
  alerts.filter (fun a => a.level == "critical")

/-- The warning group of `DashboardHeader`:
`alerts.filter(a => a.level === 'warning')`. -/
def warningAlerts (alerts : List Alert) : List Alert :=
  alerts.filter (fun a => a.level == "warning")

/-- The info group of `DashboardHeader`:
`alerts.filter(a => a.level === 'info' ||
!['critical', 'warning'].includes(a.level))`. -/
def infoAlerts (alerts : List Alert) : List Alert :=
  alerts.filter (fun a =>
    a.level == "info" || !(["critical", "warning"].contains a.level))

/-- Net flow bookkeeping of one record:
`to_battery − from_battery + to_grid − from_grid`. -/
def recordFlow (p : SimulationDataPoint) : ℚ :=
  p.to_battery_mw - p.from_battery_mw + p.to_grid_mw - p.from_grid_mw

/-- The fourteen-component tuple carrying exactly the fields of a
`SimulationDataPoint`, in interface order. -/
def SimulationDataPoint.ofTuple :
    ℕ × String × ℚ × ℚ × ℚ × ℚ × ℚ × ℚ × ℚ × ℚ × ℚ × String × ℚ × ℚ →
    SimulationDataPoint
  | (h, dt, s, d, n, bc, bp, tb, fb, tg, fg, st, ws, wd) =>
    ⟨h, dt, s, d, n, bc, bp, tb, fb, tg, fg, st, ws, wd⟩

lemma mockDemand_ge (h : ℕ) : 60 ≤ mockDemand h := by
  unfold mockDemand
  split_ifs <;> norm_num

/-- C3: for every mock timestep record, the status field is Surplus iff
net_balance_mw > 5, Deficit iff net_balance_mw < −5, and Balanced
otherwise (ε = 5 MW). -/
theorem mock_status_consistent (iso : ℤ → String) (now : ℤ) (hour : ℕ)
    (s12 s6 r1 r2 r3 r4 r5 : ℚ) :
    ((mkMockRecord iso now hour s12 s6 r1 r2 r3 r4 r5).status = "Surplus" ↔
      5 < (mkMockRecord iso now hour s12 s6 r1 r2 r3 r4 r5).net_balance_mw) ∧
    ((mkMockRecord iso now hour s12 s6 r1 r2 r3 r4 r5).status = "Deficit" ↔
      (mkMockRecord iso now hour s12 s6 r1 r2 r3 r4 r5).net_balance_mw < -5) ∧
    ((mkMockRecord iso now hour s12 s6 r1 r2 r3 r4 r5).status = "Balanced" ↔
      (-5 ≤ (mkMockRecord iso now hour s12 s6 r1 r2 r3 r4 r5).net_balance_mw ∧
       (mkMockRecord iso now hour s12 s6 r1 r2 r3 r4 r5).net_balance_mw ≤ 5)) := by
  simp only [mkMockRecord]
  set n : ℚ := 50 + s12 * 20 + r1 * 15 - mockDemand hour with hn
  by_cases hA : (5 : ℚ) < n
  · simp only [if_pos hA]
    exact ⟨⟨fun _ => hA, fun _ => trivial⟩,
      ⟨fun h => absurd h (by simp), fun h => absurd hA (by linarith)⟩,
      ⟨fun h => absurd h (by simp), fun h => absurd hA (not_lt.mpr h.2)⟩⟩
  · by_cases hB : n < (-5 : ℚ)
    · simp only [if_neg hA, if_pos hB]
      exact ⟨⟨fun h => absurd h (by simp), fun h => absurd h hA⟩,
        ⟨fun _ => hB, fun _ => trivial⟩,
        ⟨fun h => absurd h (by simp), fun h => absurd h.1 (not_le.mpr hB)⟩⟩
    · simp only [if_neg hA, if_neg hB]
      exact ⟨⟨fun h => absurd h (by simp), fun h => absurd h hA⟩,
        ⟨fun h => absurd h (by simp), fun h => absurd h hB⟩,
        ⟨fun _ => ⟨not_lt.mp hB, not_lt.mp hA⟩, fun _ => trivial⟩⟩

/-- C4: on supply 40 MW, demand 100 MW, capacity 300 MWh, soc 75 MWh
(fraction 1/4), max discharge 100 MW, the README dispatch discharges
exactly 15 MW and imports 45 MW, and the spec-modelled SOC update leaves
60 MWh. -/
theorem scenario_b_discharge :
    optimize_grid 50 100 300 40 100 (75/300) = GridDispatch.deficit 15 45 ∧
    socAfterDischarge 75
      ((optimize_grid 50 100 300 40 100 (75/300)).applied) 1 = 60 := by
  norm_num [optimize_grid, socAfterDischarge, GridDispatch.applied]

/-- C6: for every mock record (the sine value lying in [−1, 1] and the
random draw in [0, 1) as produced by Math.sin and Math.random), the
battery charge stays within [0, 300] MWh. -/
theorem mock_soc_bounds (iso : ℤ → String) (now : ℤ) (hour : ℕ)
    (s12 s6 r1 r2 r3 r4 r5 : ℚ)
    (hs1 : -1 ≤ s12) (hs2 : s12 ≤ 1) (hr1 : 0 ≤ r2) (hr2 : r2 < 1) :
    0 ≤ (mkMockRecord iso now hour s12 s6 r1 r2 r3 r4 r5).battery_charge_mwh ∧
    (mkMockRecord iso now hour s12 s6 r1 r2 r3 r4 r5).battery_charge_mwh
      ≤ 300 := by
  simp only [mkMockRecord]
  constructor <;> nlinarith

/-- Witness for C6 at hour 0 with sine 0 and random draw 1/2. -/
theorem mock_soc_bounds_witness :
    (-1 ≤ (0 : ℚ)) ∧ ((0 : ℚ) ≤ 1) ∧ (0 ≤ (1/2 : ℚ)) ∧ ((1/2 : ℚ) < 1) ∧
    (0 ≤ (mkMockRecord (fun _ => "") 0 0 0 0 0 (1/2) 0 0 0).battery_charge_mwh ∧
     (mkMockRecord (fun _ => "") 0 0 0 0 0 (1/2) 0 0 0).battery_charge_mwh
       ≤ 300) :=
  ⟨by norm_num, by norm_num, by norm_num, by norm_num,
    mock_soc_bounds (fun _ => "") 0 0 0 0 0 (1/2) 0 0 0
      (by norm_num) (by norm_num) (by norm_num) (by norm_num)⟩

/-- C9: the LIVE-mode buffer update keeps at most 24 records whenever the
previous buffer held at most 24. -/
theorem live_buffer_bounded (prev : List SimulationDataPoint)
    (p : SimulationDataPoint) (h : prev.length ≤ 24) :
    (liveUpdate prev p).length ≤ 24 := by
  simp only [liveUpdate, List.length_append, List.length_drop,
    List.length_singleton]
  omega

/-- Witness for C9 on the empty buffer. -/
theorem live_buffer_bounded_witness :
    ([] : List SimulationDataPoint).length ≤ 24 ∧
    (liveUpdate [] (mkMockRecord (fun _ => "") 0 0 0 0 0 0 0 0 0)).length
      ≤ 24 :=
  ⟨by simp,
    live_buffer_bounded [] (mkMockRecord (fun _ => "") 0 0 0 0 0 0 0 0 0)
      (by simp)⟩

/-- C10: the header's three alert groups partition any alert list: every
alert lies in exactly one of the critical, warning and info groups, and
the three group sizes sum to the total count. -/
theorem alert_groups_partition (alerts : List Alert) :
    ((criticalAlerts alerts).length + (warningAlerts alerts).length +
      (infoAlerts alerts).length = alerts.length) ∧
    (∀ a ∈ alerts,
      (a ∈ criticalAlerts alerts ∧ a ∉ warningAlerts alerts ∧
        a ∉ infoAlerts alerts) ∨
      (a ∉ criticalAlerts alerts ∧ a ∈ warningAlerts alerts ∧
        a ∉ infoAlerts alerts) ∨
      (a ∉ criticalAlerts alerts ∧ a ∉ warningAlerts alerts ∧
        a ∈ infoAlerts alerts)) := by
  constructor
  · induction alerts with
    | nil => rfl
    | cons a t ih =>
      by_cases h1 : a.level = "critical" <;> by_cases h2 : a.level = "warning" <;>
        simp_all [criticalAlerts, warningAlerts, infoAlerts, List.filter_cons] <;>
        omega
  · intro a ha
    by_cases h1 : a.level = "critical"
    · exact Or.inl (by
        simp [criticalAlerts, warningAlerts, infoAlerts, List.mem_filter,
          ha, h1])
    · by_cases h2 : a.level = "warning"
      · exact Or.inr (Or.inl (by
          simp [criticalAlerts, warningAlerts, infoAlerts, List.mem_filter,
            ha, h1, h2]))
      · exact Or.inr (Or.inr (by
          simp [criticalAlerts, warningAlerts, infoAlerts, List.mem_filter,
            ha, h1, h2]))

/-- C8: a `SimulationDataPoint` carries exactly the fourteen enumerated
fields — the constructor from the fourteen-component tuple is a
bijection, so the record holds those values and nothing else. -/
theorem record_fields_exact : Function.Bijective SimulationDataPoint.ofTuple := by
  constructor
  · rintro ⟨h, dt, s, d, n, bc, bp, tb, fb, tg, fg, st, ws, wd⟩
      ⟨h', dt', s', d', n', bc', bp', tb', fb', tg', fg', st', ws', wd'⟩ e
    simp only [SimulationDataPoint.ofTuple, SimulationDataPoint.mk.injEq] at e
    simp_all
  · rintro ⟨h, dt, s, d, n, bc, bp, tb, fb, tg, fg, st, ws, wd⟩
    exact ⟨(h, dt, s, d, n, bc, bp, tb, fb, tg, fg, st, ws, wd), rfl⟩

lemma mock_flow_bound (n r3 : ℚ) (hr3 : 0 ≤ r3) (hr3' : r3 < 1) :
    |((if n > 0 then min n 20 else 0) - (if n < 0 then min |n| 25 else 0) +
        (if n > 0 then max 0 (n - 5) else 0) -
        (if n < 0 then max 0 (|n| - 5) else 0)) - (n - r3 * 10)| < 25 := by
  by_cases hp : (0 : ℚ) < n
  · rw [if_pos hp, if_pos hp, if_neg (by linarith), if_neg (by linarith)]
    rcases le_total n 20 with h20 | h20
    · rw [min_eq_left h20]
      have h1 : (0 : ℚ) ≤ max 0 (n - 5) := le_max_left _ _
      have h2 : max 0 (n - 5) ≤ 15 := max_le (by norm_num) (by linarith)
      rw [abs_lt]
      constructor <;> linarith
    · rw [min_eq_right h20, max_eq_right (by linarith : (0 : ℚ) ≤ n - 5)]
      rw [abs_lt]
      constructor <;> linarith
  · by_cases hm : n < 0
    · rw [if_neg hp, if_neg hp, if_pos hm, if_pos hm, abs_of_neg hm]
      rcases le_total (-n) 25 with h25 | h25
      · rw [min_eq_left h25]
        have h1 : (0 : ℚ) ≤ max 0 (-n - 5) := le_max_left _ _
        have h2 : max 0 (-n - 5) ≤ 20 := max_le (by norm_num) (by linarith)
        rw [abs_lt]
        constructor <;> linarith
      · rw [min_eq_right h25, max_eq_right (by linarith : (0 : ℚ) ≤ -n - 5)]
        rw [abs_lt]
        constructor <;> linarith
    · have h0 : n = 0 := le_antisymm (not_lt.mp hp) (not_lt.mp hm)
      rw [if_neg hp, if_neg hp, if_neg hm, if_neg hm, h0, abs_lt]
      constructor <;> linarith

/-- C1 (amended): the README dispatch balances energy exactly at every
step (`charge − discharge + export − import = supply − demand`); the
24-entry mock sequence instead only bounds the residual
`to_battery − from_battery + to_grid − from_grid − (supply − demand)`
by 25 MW, not by the 5 MW tolerance. -/
theorem energy_balance_amended :
    (∀ ccap dcap cap supply demand soc : ℚ,
      (optimize_grid ccap dcap cap supply demand soc).flow = supply - demand) ∧
    (∀ (iso : ℤ → String) (now : ℤ) (hour : ℕ) (s12 s6 r1 r2 r3 r4 r5 : ℚ),
      -1 ≤ s12 → 0 ≤ r1 → 0 ≤ r3 → r3 < 1 →
      |recordFlow (mkMockRecord iso now hour s12 s6 r1 r2 r3 r4 r5) -
        ((mkMockRecord iso now hour s12 s6 r1 r2 r3 r4 r5).simulated_supply_mw -
          (mkMockRecord iso now hour s12 s6 r1 r2 r3 r4 r5).simulated_demand_mw)|
        < 25) := by
  constructor
  · intro ccap dcap cap supply demand soc
    simp only [optimize_grid]
    split_ifs with h
    · simp only [GridDispatch.flow]
      ring
    · simp only [GridDispatch.flow]
      rw [abs_of_nonpos (by linarith : supply - demand ≤ 0)]
      ring
  · intro iso now hour s12 s6 r1 r2 r3 r4 r5 hs hr1 hr3 hr3'
    simp only [mkMockRecord, recordFlow]
    have hsup : (0 : ℚ) ≤ 50 + s12 * 20 + r1 * 15 := by linarith
    have hdem : (0 : ℚ) ≤ mockDemand hour + r3 * 10 := by
      have := mockDemand_ge hour
      linarith
    rw [max_eq_right hsup, max_eq_right hdem]
    have := mock_flow_bound (50 + s12 * 20 + r1 * 15 - mockDemand hour) r3 hr3 hr3'
    calc |(if 50 + s12 * 20 + r1 * 15 - mockDemand hour > 0 then
            min (50 + s12 * 20 + r1 * 15 - mockDemand hour) 20 else 0) -
          (if 50 + s12 * 20 + r1 * 15 - mockDemand hour < 0 then
            min |50 + s12 * 20 + r1 * 15 - mockDemand hour| 25 else 0) +
          (if 50 + s12 * 20 + r1 * 15 - mockDemand hour > 0 then
            max 0 (50 + s12 * 20 + r1 * 15 - mockDemand hour - 5) else 0) -
          (if 50 + s12 * 20 + r1 * 15 - mockDemand hour < 0 then
            max 0 (|50 + s12 * 20 + r1 * 15 - mockDemand hour| - 5) else 0) -
          (50 + s12 * 20 + r1 * 15 - (mockDemand hour + r3 * 10))|
        = |(if 50 + s12 * 20 + r1 * 15 - mockDemand hour > 0 then
            min (50 + s12 * 20 + r1 * 15 - mockDemand hour) 20 else 0) -
          (if 50 + s12 * 20 + r1 * 15 - mockDemand hour < 0 then
            min |50 + s12 * 20 + r1 * 15 - mockDemand hour| 25 else 0) +
          (if 50 + s12 * 20 + r1 * 15 - mockDemand hour > 0 then
            max 0 (50 + s12 * 20 + r1 * 15 - mockDemand hour - 5) else 0) -
          (if 50 + s12 * 20 + r1 * 15 - mockDemand hour < 0 then
            max 0 (|50 + s12 * 20 + r1 * 15 - mockDemand hour| - 5) else 0) -
          (50 + s12 * 20 + r1 * 15 - mockDemand hour - r3 * 10)| := by
          ring_nf
      _ < 25 := this

/-- Witness for C1 at concrete inputs: a balanced dispatch step and the
mock record of hour 0 with zero sine value and zero random draws. -/
theorem energy_balance_amended_witness :
    (optimize_grid 50 100 300 100 70 (1/2)).flow = 100 - 70 ∧
    |recordFlow (mkMockRecord (fun _ => "") 0 0 0 0 0 0 0 0 0) -
      ((mkMockRecord (fun _ => "") 0 0 0 0 0 0 0 0 0).simulated_supply_mw -
        (mkMockRecord (fun _ => "") 0 0 0 0 0 0 0 0 0).simulated_demand_mw)|
      < 25 :=
  ⟨energy_balance_amended.1 50 100 300 100 70 (1/2),
    energy_balance_amended.2 (fun _ => "") 0 0 0 0 0 0 0 0 0
      (by norm_num) (by norm_num) (by norm_num) (by norm_num)⟩

/-- C1 counterexample: at hour 18 (sin(18π/12) = −1 exactly) with all
Math.random draws 0, the mock record has supply 30, demand 110,
to_battery 0, from_battery 25, to_grid 0, from_grid 75, so the residual
of the energy balance is 20 MW — outside the 5 MW tolerance the claim
asserts. -/
theorem mock_energy_balance_cex :
    ¬ |recordFlow (mkMockRecord (fun _ => "") 0 18 (-1) 0 0 0 0 0 0) -
        ((mkMockRecord (fun _ => "") 0 18 (-1) 0 0 0 0 0 0).simulated_supply_mw -
          (mkMockRecord (fun _ => "") 0 18 (-1) 0 0 0 0 0 0).simulated_demand_mw)|
      ≤ 5 := by
  norm_num [recordFlow, mkMockRecord, mockDemand]

/-- C2 (amended): the README dispatch computes the applied battery power
as min(desired, max_power, headroom) with NO floor at 0: it is total and
nonnegative whenever the SOC fraction lies inside the configured band
and the limits are nonnegative, but an infeasible request (SOC beyond
the threshold) yields a negative applied power, not 0. -/
theorem optimize_grid_applied_amended (ccap dcap cap supply demand soc : ℚ) :
    (0 < supply - demand →
      (optimize_grid ccap dcap cap supply demand soc).applied =
        min (supply - demand) (min ccap ((8/10 - soc) * cap))) ∧
    (supply - demand ≤ 0 →
      (optimize_grid ccap dcap cap supply demand soc).applied =
        min |supply - demand| (min dcap ((soc - 2/10) * cap))) ∧
    (0 < supply - demand → soc ≤ 8/10 → 0 ≤ ccap → 0 ≤ cap →
      0 ≤ (optimize_grid ccap dcap cap supply demand soc).applied) ∧
    (supply - demand ≤ 0 → 2/10 ≤ soc → 0 ≤ dcap → 0 ≤ cap →
      0 ≤ (optimize_grid ccap dcap cap supply demand soc).applied) := by
  simp only [optimize_grid]
  refine ⟨fun h => ?_, fun h => ?_, fun h hsoc hc hcap => ?_, fun h hsoc hd hcap => ?_⟩
  · rw [if_pos h]
    rfl
  · rw [if_neg (by linarith)]
    rfl
  · rw [if_pos h]
    simp only [GridDispatch.applied]
    exact le_min (le_of_lt h)
      (le_min hc (mul_nonneg (by linarith) hcap))
  · rw [if_neg (by linarith)]
    simp only [GridDispatch.applied]
    exact le_min (abs_nonneg _)
      (le_min hd (mul_nonneg (by linarith) hcap))

/-- Witness for C2: a surplus step and a deficit step with SOC 1/2,
where the applied power is nonnegative. -/
theorem optimize_grid_applied_witness :
    0 ≤ (optimize_grid 50 100 300 100 70 (1/2)).applied ∧
    0 ≤ (optimize_grid 50 100 300 40 100 (1/2)).applied :=
  ⟨(optimize_grid_applied_amended 50 100 300 100 70 (1/2)).2.2.1
      (by norm_num) (by norm_num) (by norm_num) (by norm_num),
    (optimize_grid_applied_amended 50 100 300 40 100 (1/2)).2.2.2
      (by norm_num) (by norm_num) (by norm_num) (by norm_num)⟩

/-- C2 counterexample: with SOC fraction 9/10 (above the 0.8 threshold)
and a 30 MW surplus, the README dispatch "charges" −30 MW — the applied
power is negative, refuting the claimed floor at 0. -/
theorem optimize_grid_floor_cex :
    (optimize_grid 50 100 300 100 70 (9/10)).applied = -30 ∧
    (optimize_grid 50 100 300 100 70 (9/10)).applied < 0 := by
  norm_num [optimize_grid, GridDispatch.applied]

/-- C5 (amended): the frontend applies the turbine faults
(multi-turbine takes precedence, setting availability to 0.25, else a
single failure sets it to 0.5) and the battery fault (halving
battery_capacity_mwh) as configuration-time transforms on the request,
but the grid-issue fault is NOT applied: the request carries no
grid_available field and is identical whether or not the grid issue is
selected. -/
theorem request_fault_transforms_amended (mode : Mode) (turbineCount : ℕ)
    (turbineAvailability batteryCapacity : ℚ) (faults : Faults)
    (dateFrom dateTo : Option String) :
    ((requestBody mode turbineCount turbineAvailability batteryCapacity
        faults dateFrom dateTo).turbine_availability =
      if faults.multipleTurbineFailure then 25/100
      else if faults.turbineFailure then 5/10
      else turbineAvailability) ∧
    ((requestBody mode turbineCount turbineAvailability batteryCapacity
        faults dateFrom dateTo).battery_capacity_mwh =
      if faults.batteryFault then batteryCapacity * (5/10)
      else batteryCapacity) ∧
    (∀ g : Bool,
      requestBody mode turbineCount turbineAvailability batteryCapacity
        { faults with gridIssue := g } dateFrom dateTo =
      requestBody mode turbineCount turbineAvailability batteryCapacity
        faults dateFrom dateTo) := by
  refine ⟨rfl, rfl, fun g => ?_⟩
  cases faults
  rfl

/-- C5 counterexample: with the dashboard's default settings, selecting
only the grid-issue fault produces exactly the same request as selecting
no fault at all — no grid_available (or any other) field is changed. -/
theorem grid_issue_ignored_cex :
    requestBody Mode.MANUAL 50 (95/100) 300
      ⟨false, false, true, false⟩ none none =
    requestBody Mode.MANUAL 50 (95/100) 300
      ⟨false, false, false, false⟩ none none := rfl

/-- C7 (amended): the mock generation is a deterministic function of the
hour TOGETHER WITH the implicit entropy (the Math.random() draws and
Date.now()); with the hour and all other inputs held fixed, records from
distinct draws of the first Math.random() call differ (already in
net_balance_mw), so two evaluations on identical configuration and hour
inputs need not be identical. -/
theorem mock_determinism_amended (iso : ℤ → String) (now : ℤ) (hour : ℕ)
    (s12 s6 r1 r1' r2 r3 r4 r5 : ℚ) (h : r1 ≠ r1') :
    mkMockRecord iso now hour s12 s6 r1 r2 r3 r4 r5 ≠
    mkMockRecord iso now hour s12 s6 r1' r2 r3 r4 r5 := by
  intro heq
  have hnb := congrArg SimulationDataPoint.net_balance_mw heq
  simp only [mkMockRecord] at hnb
  apply h
  have : r1 * 15 = r1' * 15 := by linarith
  linarith

/-- Witness for C7's amended statement: draws 0 and 1/2 at hour 0 give
different records. -/
theorem mock_determinism_amended_witness :
    ((0 : ℚ) ≠ 1/2) ∧
    (mkMockRecord (fun _ => "") 0 0 0 0 0 0 0 0 0 ≠
      mkMockRecord (fun _ => "") 0 0 0 0 (1/2) 0 0 0 0) :=
  ⟨by norm_num,
    mock_determinism_amended (fun _ => "") 0 0 0 0 0 (1/2) 0 0 0 0
      (by norm_num)⟩

/-- C7 counterexample: two evaluations of the mock generator body at
the same hour (0) and the same Date.now() base differ when the
Math.random() supply draw returns 0 in one call and 1/2 in the other —
the output is not determined by the configuration and hour inputs. -/
theorem mock_not_deterministic_cex :
    mkMockRecord (fun _ => "") 0 0 0 0 0 0 0 0 0 ≠
    mkMockRecord (fun _ => "") 0 0 0 0 (1/2) 0 0 0 0 := by
  intro heq
  have hnb := congrArg SimulationDataPoint.net_balance_mw heq
  norm_num [mkMockRecord, mockDemand] at hnb
